import Mathlib

/-!
Shallow embedding of `ase.py` (AwsSecurityEnumerator), a thin wrapper over
the boto SDK that enumerates AWS resources across the accounts of a
configuration.  Python exceptions are modelled by the `Except` monad over an
error type `PyErr` that separates the domain error `ASEException` from raw
Python errors (`KeyError`, `AttributeError`) and from arbitrary exceptions
raised by the SDK.  The boto SDK itself is modelled as a record of oracle
functions (`SDK`); each enumerator method is a function of the oracle, the
configuration and its arguments, translated statement by statement from the
source.  A bare `except: raise ASEException(msg)` block of the source is the
combinator `wrap msg`; Python code standing *outside* such a block is
correspondingly not wrapped here.
-/

namespace ASE

/-- Python exception values that can propagate out of the enumerator:
the domain error `ASEException msg`, the raw `KeyError` from a missing
dictionary key, the `AttributeError` from an attribute access on a
non-object, and an arbitrary exception raised by the boto SDK. -/
inductive PyErr where
  | keyError (key : String)
  | attributeError (attr : String)
  | aseException (msg : String)
  | sdkError (msg : String)
deriving DecidableEq, Repr

/-- Model of Python's `str.lower()`: lowercase every character. -/
def pyLower (s : String) : String :=
  ⟨s.data.map Char.toLower⟩

/-- One entry of the `aws_accounts` list of the yaml configuration. -/
structure Account where
  name : String
  key : String
  secret : String
deriving DecidableEq, Repr

/-- The configuration dictionary handed to `AwsSecurityEnumerator`.  The
`aws_accounts` key may be missing (`none`), in which case indexing raises
`KeyError`. -/
structure Config where
  aws_accounts : Option (List Account)
deriving DecidableEq, Repr

/-- The credential pair returned by `get_account_api_creds`. -/
structure Creds where
  access_key : String
  secret_key : String
deriving DecidableEq, Repr

/-- A boto region object; only its `name` is used by the source. -/
structure Region where
  name : String
deriving DecidableEq, Repr

/-- An opaque connection handle returned by the SDK's connect calls. -/
abbrev Conn := String

/-- An opaque boto load-balancer record. -/
abbrev LB := String

/-- An opaque boto security-group record. -/
abbrev SecGroup := String

/-- A boto instance object: the fields `get_all_instance_events` reads. -/
structure Instance where
  id : String
  tags : List (String × String)
  regionName : String
deriving DecidableEq, Repr

/-- A boto reservation: a container of instances. -/
structure Reservation where
  instances : List Instance
deriving DecidableEq, Repr

/-- A boto instance-status event. -/
structure Event where
  code : String
  description : String
  not_before : String
  not_after : String
deriving DecidableEq, Repr

/-- A boto instance-status object: `events` is `None` in normal cases. -/
structure InstanceStatus where
  id : String
  events : Option (List Event)
deriving DecidableEq, Repr

/-- The dictionary synthesized per maintenance event by
`get_all_instance_events`. -/
structure EventRecord where
  instance_id : String
  completed : Bool
  event_code : String
  descript : String
  time_nb4 : String
  time_nafter : String
  tags : List (String × String)
  account : String
  region : String
deriving DecidableEq, Repr

/-- The boto SDK as an oracle: each field models one external call the
source makes, and may raise an arbitrary `PyErr`. -/
structure SDK where
  connect_ec2 : String → String → Except PyErr Conn
  get_all_regions : Conn → Except PyErr (List Region)
  region_connect : Region → String → String → Except PyErr Conn
  get_all_reservations : Conn → Except PyErr (List Reservation)
  elb_connect_to_region : String → String → String → Except PyErr Conn
  get_all_load_balancers : Conn → Except PyErr (List LB)
  get_all_instance_status : Conn → Except PyErr (List InstanceStatus)
  get_all_security_groups : Conn → Except PyErr (List SecGroup)

/-- A bare `try: ... except: raise ASEException(msg)` block: any error of the
body, whatever it is, becomes the domain error with the block's message. -/
def wrap (msg : String) : Except PyErr α → Except PyErr α
  | .ok a => .ok a
  | .error _ => .error (.aseException msg)

/-- Whether an `Except` value is an error. -/
def isError : Except PyErr α → Bool
  | .ok _ => false
  | .error _ => true

/-- ase.py 37-42, `get_all_aws_accounts`: `return self.config['aws_accounts']`;
a missing key raises a raw `KeyError`. -/
def get_all_aws_accounts (config : Config) : Except PyErr (List Account) :=
  match config.aws_accounts with
  | some accounts => .ok accounts
  | none => .error (.keyError "aws_accounts")

/-- ase.py 44-56, `get_account_api_creds`: scan `config['aws_accounts']` in
order for the first entry whose stored `name` equals the *lower-cased input*
(`account['name'] == account_name.lower()`); return its key/secret, else
raise `ASEException`. -/
def get_account_api_creds (config : Config) (account_name : String) :
    Except PyErr Creds :=
  match get_all_aws_accounts config with
  | .error e => .error e
  | .ok accounts =>
    match accounts.find? (fun a => a.name == pyLower account_name) with
    | some a => .ok ⟨a.key, a.secret⟩
    | none => .error (.aseException "Cannot obtain credentials for specified account")

/-- The `for region in regions` loop of `__ec2_connect_all_regions`: connect
to each region in order, aborting at the first failure. -/
def connectRegions (sdk : SDK) (access_key secret_key : String) :
    List Region → Except PyErr (List Conn)
  | [] => .ok []
  | r :: rs =>
    match sdk.region_connect r access_key secret_key with
    | .error e => .error e
    | .ok conn =>
      match connectRegions sdk access_key secret_key rs with
      | .error e => .error e
      | .ok conns => .ok (conn :: conns)

/-- ase.py 58-79, `__ec2_connect_all_regions`: resolve credentials (outside
the try block), then inside one `except:` connect, list regions and connect
per region; any failure there becomes `ASEException('Cannot connect to ec2
region')`. -/
def ec2_connect_all_regions (sdk : SDK) (config : Config) (account_name : String) :
    Except PyErr (List Conn) :=
  match get_account_api_creds config account_name with
  | .error e => .error e
  | .ok creds =>
    wrap "Cannot connect to ec2 region"
      (match sdk.connect_ec2 creds.access_key creds.secret_key with
       | .error e => .error e
       | .ok ec2 =>
         match sdk.get_all_regions ec2 with
         | .error e => .error e
         | .ok regions => connectRegions sdk creds.access_key creds.secret_key regions)

/-- A `for x in xs: results += g(x)` loop over `Except`: append each call's
list to the accumulator, aborting at the first failure. -/
def collect (g : α → Except PyErr (List β)) :
    List α → List β → Except PyErr (List β)
  | [], acc => .ok acc
  | x :: xs, acc =>
    match g x with
    | .error e => .error e
    | .ok r => collect g xs (acc ++ r)

/-- ase.py 81-97, `get_instances_for_account`: inside one `except:`, connect
to all regions, gather every reservation of every connection, and flatten
`[i for r in res_list for i in r.instances]`; any failure becomes
`ASEException('Cannot get instances for named account')`. -/
def get_instances_for_account (sdk : SDK) (config : Config) (account_name : String) :
    Except PyErr (List Instance) :=
  wrap "Cannot get instances for named account"
    (match ec2_connect_all_regions sdk config account_name with
     | .error e => .error e
     | .ok ec2s =>
       match collect sdk.get_all_reservations ec2s [] with
       | .error e => .error e
       | .ok res_list => .ok (res_list.map Reservation.instances).flatten)

/-- ase.py 99-111, `get_all_instances`: inside one `except:`, iterate the
configured account names in order and concatenate each account's instances;
any failure becomes `ASEException('Cannot get all instances')`. -/
def get_all_instances (sdk : SDK) (config : Config) : Except PyErr (List Instance) :=
  wrap "Cannot get all instances"
    (match get_all_aws_accounts config with
     | .error e => .error e
     | .ok accounts =>
       collect (fun a => get_instances_for_account sdk config a)
         (accounts.map Account.name) [])

/-- The `for region in regions` loop of `get_elbs_for_account`: connect to
each region's ELB endpoint and append its load balancers. -/
def elbRegionsLoop (sdk : SDK) (creds : Creds) :
    List Region → List LB → Except PyErr (List LB)
  | [], acc => .ok acc
  | r :: rs, acc =>
    match sdk.elb_connect_to_region r.name creds.access_key creds.secret_key with
    | .error e => .error e
    | .ok elb =>
      match sdk.get_all_load_balancers elb with
      | .error e => .error e
      | .ok lbs => elbRegionsLoop sdk creds rs (acc ++ lbs)

/-- ase.py 113-134, `get_elbs_for_account`: credential resolution, the
initial `boto.connect_ec2` and `get_all_regions` stand *before* the
`try:` block in the source, so their exceptions escape unwrapped; only the
per-region listing loop is wrapped into `ASEException('Cannot get ELBs for
named account')`. -/
def get_elbs_for_account (sdk : SDK) (config : Config) (account_name : String) :
    Except PyErr (List LB) :=
  match get_account_api_creds config account_name with
  | .error e => .error e
  | .ok creds =>
    match sdk.connect_ec2 creds.access_key creds.secret_key with
    | .error e => .error e
    | .ok ec2 =>
      match sdk.get_all_regions ec2 with
      | .error e => .error e
      | .ok regions =>
        wrap "Cannot get ELBs for named account" (elbRegionsLoop sdk creds regions [])

/-- ase.py 136-148, `get_all_elbs`: like `get_all_instances` with message
`'Cannot get all ELBs'`. -/
def get_all_elbs (sdk : SDK) (config : Config) : Except PyErr (List LB) :=
  wrap "Cannot get all ELBs"
    (match get_all_aws_accounts config with
     | .error e => .error e
     | .ok accounts =>
       collect (fun a => get_elbs_for_account sdk config a)
         (accounts.map Account.name) [])

/-- ase.py 150-165, `__get_all_instance_status`: inside one `except:`,
connect to all regions and gather every instance-status object; any failure
becomes `ASEException('Cannot obtain instance status')`. -/
def get_all_instance_status (sdk : SDK) (config : Config) (account_name : String) :
    Except PyErr (List InstanceStatus) :=
  wrap "Cannot obtain instance status"
    (match ec2_connect_all_regions sdk config account_name with
     | .error e => .error e
     | .ok ec2s => collect sdk.get_all_instance_status ec2s [])

/-- The `instance = ''; for i in instances: if i.id == s.id: instance = i`
loop of `get_all_instance_events`: with no `break`, a later match overwrites
an earlier one, so the *last* matching instance wins; `none` models the
string placeholder `''` left when nothing matches. -/
def findInstanceLoop (instances : List Instance) (sid : String) : Option Instance :=
  instances.foldl (fun acc i => if i.id == sid then some i else acc) none

/-- Python's substring test `needle in haystack`, on lists of characters:
try every suffix of the haystack for `needle` as a prefix. -/
def containsSub (needle : List Char) : List Char → Bool
  | [] => needle.isPrefixOf []
  | c :: rest => needle.isPrefixOf (c :: rest) || containsSub needle rest

/-- The dictionary literal built per event in `get_all_instance_events`,
given the instance the scan located:  `completed` is the
`'[Completed]' in event.description` test. -/
def mkRecord (account_name : String) (s : InstanceStatus) (event : Event)
    (inst : Instance) : EventRecord where
  instance_id := s.id
  completed := containsSub "[Completed]".data event.description.data
  event_code := event.code
  descript := event.description
  time_nb4 := event.not_before
  time_nafter := event.not_after
  tags := inst.tags
  account := account_name
  region := inst.regionName

/-- The `for event in s.events` loop: per event, re-scan the instance list;
when no instance matched, the source's `instance` is still the string `''`
and `instance.tags` raises `AttributeError`. -/
def processEvents (instances : List Instance) (account_name : String)
    (s : InstanceStatus) (acc : List EventRecord) :
    List Event → Except PyErr (List EventRecord)
  | [] => .ok acc
  | ev :: evs =>
    match findInstanceLoop instances s.id with
    | none => .error (.attributeError "tags")
    | some inst =>
      processEvents instances account_name s (acc ++ [mkRecord account_name s ev inst]) evs

/-- The `for s in status_list` loop: `if s.events:` skips a `None` (and an
empty) event list, else every event of the entry is processed. -/
def processStatusList (instances : List Instance) (account_name : String)
    (acc : List EventRecord) :
    List InstanceStatus → Except PyErr (List EventRecord)
  | [] => .ok acc
  | s :: ss =>
    match s.events with
    | none => processStatusList instances account_name acc ss
    | some evs =>
      match processEvents instances account_name s acc evs with
      | .error e => .error e
      | .ok acc2 => processStatusList instances account_name acc2 ss

/-- ase.py 167-201, `get_all_instance_events`: the status fetch and the
instance fetch stand before the `try:` block (each already raises only
`ASEException`); the synthesis loop is wrapped into `ASEException('Cannot
get instance maintenance events')`. -/
def get_all_instance_events (sdk : SDK) (config : Config) (account_name : String) :
    Except PyErr (List EventRecord) :=
  match get_all_instance_status sdk config account_name with
  | .error e => .error e
  | .ok status_list =>
    match get_instances_for_account sdk config account_name with
    | .error e => .error e
    | .ok instances =>
      wrap "Cannot get instance maintenance events"
        (processStatusList instances account_name [] status_list)

/-- ase.py 203-219, `get_security_groups`: the region fan-out stands before
the `try:` block; only the listing loop is wrapped into
`ASEException('Cannot get security groups for named account')`. -/
def get_security_groups (sdk : SDK) (config : Config) (account_name : String) :
    Except PyErr (List SecGroup) :=
  match ec2_connect_all_regions sdk config account_name with
  | .error e => .error e
  | .ok ec2s =>
    wrap "Cannot get security groups for named account"
      (collect sdk.get_all_security_groups ec2s [])

/-- ase.py 221-233, `get_all_security_groups`: like `get_all_instances` with
message `'Cannot get all security groups'`. -/
def get_all_security_groups (sdk : SDK) (config : Config) :
    Except PyErr (List SecGroup) :=
  wrap "Cannot get all security groups"
    (match get_all_aws_accounts config with
     | .error e => .error e
     | .ok accounts =>
       collect (fun a => get_security_groups sdk config a)
         (accounts.map Account.name) [])

deriving instance DecidableEq for Except

/-- Lowering an upper-case ASCII letter yields the code point shifted by 32,
which is a valid character read back unchanged. -/
theorem charToLower_toNat (c : Char) (h : 65 ≤ c.toNat ∧ c.toNat ≤ 90) :
    (Char.ofNat (c.toNat + 32)).toNat = c.toNat + 32 := by
  have hv : (c.toNat + 32).isValidChar := Or.inl (by omega)
  rw [Char.ofNat, dif_pos hv]
  rfl

/-- Lowering a character twice is the same as lowering it once. -/
theorem charToLower_idem (c : Char) : c.toLower.toLower = c.toLower := by
  by_cases h : 65 ≤ c.toNat ∧ c.toNat ≤ 90
  · have h1 : c.toLower = Char.ofNat (c.toNat + 32) := by
      simp only [Char.toLower]
      rw [if_pos ⟨h.1, h.2⟩]
    have h2 := charToLower_toNat c h
    rw [h1]
    simp only [Char.toLower, h2]
    rw [if_neg]
    omega
  · have h1 : c.toLower = c := by
      simp only [Char.toLower]
      rw [if_neg (fun hc => h ⟨hc.1, hc.2⟩)]
    rw [h1, h1]

/-- Python's `str.lower()` is idempotent. -/
theorem pyLower_idem (s : String) : pyLower (pyLower s) = pyLower s := by
  show String.mk ((s.data.map Char.toLower).map Char.toLower)
      = String.mk (s.data.map Char.toLower)
  rw [List.map_map]
  exact congrArg String.mk (List.map_congr_left fun c _ => charToLower_idem c)

/-- A wrapped block succeeds exactly when its body does, with the same value. -/
theorem wrap_ok_iff (msg : String) (x : Except PyErr α) (a : α) :
    wrap msg x = .ok a ↔ x = .ok a := by
  cases x <;> simp [wrap]

/-- A wrapped block turns any error of its body into the block's
`ASEException`, whatever the original exception was. -/
theorem wrap_error (msg : String) (x : Except PyErr α) (h : isError x = true) :
    wrap msg x = .error (.aseException msg) := by
  cases x with
  | error e => rfl
  | ok a => simp [isError] at h

/-- A result-accumulating loop where every call succeeds returns the
accumulator followed by all the per-call lists, flattened in order. -/
theorem collect_ok (g : α → Except PyErr (List β)) (F : α → List β) :
    ∀ (xs : List α), (∀ x ∈ xs, g x = .ok (F x)) →
      ∀ acc, collect g xs acc = .ok (acc ++ (xs.map F).flatten)
  | [], _, acc => by simp [collect]
  | x :: xs, hok, acc => by
    have hx := hok x (by simp)
    have ih := collect_ok g F xs (fun y hy => hok y (by simp [hy])) (acc ++ F x)
    simp only [collect, hx, ih, List.map_cons, List.flatten_cons, List.append_assoc]

/-- A result-accumulating loop where some call fails returns an error:
no partial list ever comes back. -/
theorem collect_error (g : α → Except PyErr (List β)) :
    ∀ (xs : List α) (acc : List β), (∃ x ∈ xs, isError (g x) = true) →
      ∃ e, collect g xs acc = .error e
  | [], _, h => by simp at h
  | x :: xs, acc, h => by
    cases hgx : g x with
    | error e => exact ⟨e, by simp [collect, hgx]⟩
    | ok r =>
      obtain ⟨y, hy, he⟩ := h
      rcases List.mem_cons.mp hy with rfl | hmem
      · rw [hgx] at he
        simp [isError] at he
      · obtain ⟨e, he2⟩ := collect_error g xs (acc ++ r) ⟨y, hmem, he⟩
        exact ⟨e, by simp [collect, hgx, he2]⟩

/-- An overwrite-scan (`for i in l: if p i: acc = i`) started at `acc` ends at
the last match when one exists, i.e. the first match of the reversed list,
and at `acc` otherwise. -/
theorem foldl_overwrite (p : Instance → Bool) :
    ∀ (l : List Instance) (acc : Option Instance),
      l.foldl (fun acc i => if p i then some i else acc) acc
        = (l.reverse.find? p).or acc
  | [], acc => by simp
  | i :: l, acc => by
    rw [List.foldl_cons, foldl_overwrite p l]
    simp only [List.reverse_cons, List.find?_append, List.find?_singleton,
      Option.or_assoc]
    by_cases hp : p i <;> simp [hp]

/-- The instance-matching loop of `get_all_instance_events` returns the
*last* instance of the list whose id matches, phrased as the first match of
the reversed list. -/
theorem findInstanceLoop_eq (instances : List Instance) (sid : String) :
    findInstanceLoop instances sid
      = instances.reverse.find? (fun i => i.id == sid) := by
  rw [findInstanceLoop, foldl_overwrite, Option.or_none]

/-- When no instance of the list carries the status entry's id, the
instance-matching loop leaves the placeholder. -/
theorem findInstanceLoop_eq_none (instances : List Instance) (sid : String)
    (h : ∀ i ∈ instances, i.id ≠ sid) : findInstanceLoop instances sid = none := by
  rw [findInstanceLoop_eq]
  rw [List.find?_eq_none]
  intro i hi
  simp only [beq_iff_eq]
  exact h i (List.mem_reverse.mp hi)

/-- `containsSub` decides Python's substring test: it holds exactly when the
needle is an infix of the haystack. -/
theorem containsSub_iff (needle : List Char) :
    ∀ haystack : List Char, containsSub needle haystack = true ↔ needle <:+: haystack
  | [] => by
    simp [containsSub, List.isPrefixOf_iff_prefix]
  | c :: rest => by
    simp [containsSub, List.isPrefixOf_iff_prefix, containsSub_iff needle rest,
      List.infix_cons_iff]

/-- A one-account configuration whose stored name is lower-case. -/
def cfgPure : Config := ⟨some [⟨"prod", "K", "S"⟩]⟩

/-- A one-account configuration whose stored name carries an upper-case
letter. -/
def cfgMixed : Config := ⟨some [⟨"Prod", "K", "S"⟩]⟩

/-- A two-account configuration, `prod` before `dev`. -/
def cfg2 : Config := ⟨some [⟨"prod", "K1", "S1"⟩, ⟨"dev", "K2", "S2"⟩]⟩

/-- An all-success SDK oracle serving one region whose single reservation
holds `insts` and whose status listing returns `ss`. -/
def okSDK1 (insts : List Instance) (ss : List InstanceStatus) : SDK where
  connect_ec2 := fun _ _ => .ok "default"
  get_all_regions := fun _ => .ok [⟨"us-east-1"⟩]
  region_connect := fun r _ _ => .ok r.name
  get_all_reservations := fun _ => .ok [⟨insts⟩]
  elb_connect_to_region := fun r _ _ => .ok r
  get_all_load_balancers := fun _ => .ok []
  get_all_instance_status := fun _ => .ok ss
  get_all_security_groups := fun _ => .ok []

/-- An SDK oracle whose very first call, `boto.connect_ec2`, raises. -/
def sdkConnFail : SDK where
  connect_ec2 := fun _ _ => .error (.sdkError "connection reset")
  get_all_regions := fun _ => .ok []
  region_connect := fun r _ _ => .ok r.name
  get_all_reservations := fun _ => .ok []
  elb_connect_to_region := fun r _ _ => .ok r
  get_all_load_balancers := fun _ => .ok []
  get_all_instance_status := fun _ => .ok []
  get_all_security_groups := fun _ => .ok []

/-- An SDK oracle with three regions whose reservation listing fails on the
second region only. -/
def sdk3 : SDK where
  connect_ec2 := fun _ _ => .ok "default"
  get_all_regions := fun _ => .ok [⟨"r1"⟩, ⟨"r2"⟩, ⟨"r3"⟩]
  region_connect := fun r _ _ => .ok r.name
  get_all_reservations := fun conn =>
    if conn == "r2" then .error (.sdkError "listing failed")
    else .ok [⟨[⟨"i-ok", [], conn⟩]⟩]
  elb_connect_to_region := fun r _ _ => .ok r
  get_all_load_balancers := fun _ => .ok []
  get_all_instance_status := fun _ => .ok []
  get_all_security_groups := fun _ => .ok []

/-- On the all-success single-region oracle, the maintenance-event pipeline
reduces to the synthesis loop over the served statuses and instances. -/
theorem events_pipeline (insts : List Instance) (ss : List InstanceStatus) :
    get_all_instance_events (okSDK1 insts ss) cfgPure "prod"
      = wrap "Cannot get instance maintenance events"
          (processStatusList insts "prod" [] ss) := by
  have h : get_all_instance_events (okSDK1 insts ss) cfgPure "prod"
      = wrap "Cannot get instance maintenance events"
          (processStatusList (insts ++ []) "prod" [] ([] ++ ss)) := rfl
  rw [h, List.append_nil, List.nil_append]

/-- C1: the claim is false on the code: `get_account_api_creds` lower-cases
only the *input*, so a configured name that itself carries an upper-case
letter is never matched.  With the single entry named `"Prod"` (key `"K"`,
secret `"S"`), looking up `"prod"` — which differs from the stored name only
in letter case — raises the lookup `ASEException` instead of returning that
entry's credentials. -/
theorem C1_counterexample_case_sensitive_store :
    get_account_api_creds cfgMixed "prod"
      = .error (.aseException "Cannot obtain credentials for specified account") := rfl

/-- C1 (amended): provided every configured name is stored lower-case, the
lookup is case-insensitive: an input differing only in letter case from some
entry's name succeeds and returns the key/secret of an entry whose stored
name equals the lowered input (the first such, per sequential scan). -/
theorem C1_amended_case_insensitive (config : Config) (accounts : List Account)
    (account_name : String)
    (hacc : config.aws_accounts = some accounts)
    (hlower : ∀ a ∈ accounts, pyLower a.name = a.name)
    (hmatch : ∃ a ∈ accounts, pyLower a.name = pyLower account_name) :
    ∃ b ∈ accounts, b.name = pyLower account_name ∧
      get_account_api_creds config account_name = .ok ⟨b.key, b.secret⟩ := by
  obtain ⟨a, ha, heq⟩ := hmatch
  have hname : a.name = pyLower account_name := by rw [← hlower a ha, heq]
  have hsome : (accounts.find? (fun x => x.name == pyLower account_name)).isSome := by
    rw [List.find?_isSome]
    exact ⟨a, ha, by simp [hname]⟩
  obtain ⟨b, hb⟩ := Option.isSome_iff_exists.mp hsome
  have hbmem := List.mem_of_find?_eq_some hb
  have hbp : b.name = pyLower account_name := by
    have := List.find?_some hb
    simpa using this
  have h1 : get_all_aws_accounts config = .ok accounts := by
    rw [get_all_aws_accounts, hacc]
  refine ⟨b, hbmem, hbp, ?_⟩
  simp only [get_account_api_creds, h1, hb]

/-- C1 amended-claim witness: a lower-case store looked up with an
upper-case input. -/
theorem C1_amended_case_insensitive_witness :
    ∃ b ∈ [(⟨"prod", "K", "S"⟩ : Account)], b.name = pyLower "PROD" ∧
      get_account_api_creds cfgPure "PROD" = .ok ⟨b.key, b.secret⟩ :=
  C1_amended_case_insensitive cfgPure [⟨"prod", "K", "S"⟩] "PROD" rfl
    (by decide) ⟨⟨"prod", "K", "S"⟩, by decide, by decide⟩

/-- C9: with no case-insensitive match among the configured accounts, the
lookup fails with the fixed `ASEException`.  The function consults only the
configuration — in this embedding it does not even receive the SDK oracle —
so no SDK call is made before the failure. -/
theorem C9_no_match_fails (config : Config) (accounts : List Account)
    (account_name : String)
    (hacc : config.aws_accounts = some accounts)
    (hnomatch : ∀ a ∈ accounts, pyLower a.name ≠ pyLower account_name) :
    get_account_api_creds config account_name
      = .error (.aseException "Cannot obtain credentials for specified account") := by
  have h1 : get_all_aws_accounts config = .ok accounts := by
    rw [get_all_aws_accounts, hacc]
  have h2 : accounts.find? (fun x => x.name == pyLower account_name) = none := by
    rw [List.find?_eq_none]
    intro a ha
    simp only [beq_iff_eq]
    intro hname
    exact hnomatch a ha (by rw [hname, pyLower_idem])
  simp only [get_account_api_creds, h1, h2]

/-- C9 witness: looking up `staging` in the one-account (`prod`)
configuration fails with the lookup error. -/
theorem C9_no_match_fails_witness :
    get_account_api_creds cfgPure "staging"
      = .error (.aseException "Cannot obtain credentials for specified account") :=
  C9_no_match_fails cfgPure [⟨"prod", "K", "S"⟩] "staging" rfl (by decide)

/-- C10: a configuration that lacks the `aws_accounts` key makes
`get_all_aws_accounts` raise the raw `KeyError` — not the domain
`ASEException` — while every all-accounts operation, calling it inside its
own catch-all, re-wraps that `KeyError` into its generic message. -/
theorem C10_missing_key_raw_keyerror (sdk : SDK) (config : Config)
    (h : config.aws_accounts = none) :
    get_all_aws_accounts config = .error (.keyError "aws_accounts")
    ∧ get_all_instances sdk config
        = .error (.aseException "Cannot get all instances")
    ∧ get_all_elbs sdk config = .error (.aseException "Cannot get all ELBs")
    ∧ get_all_security_groups sdk config
        = .error (.aseException "Cannot get all security groups") := by
  have h1 : get_all_aws_accounts config = .error (.keyError "aws_accounts") := by
    rw [get_all_aws_accounts, h]
  refine ⟨h1, ?_, ?_, ?_⟩ <;>
    simp only [get_all_instances, get_all_elbs, get_all_security_groups, h1, wrap]

/-- C10 witness: the empty configuration dictionary at a concrete oracle. -/
theorem C10_missing_key_raw_keyerror_witness :
    get_all_aws_accounts (⟨none⟩ : Config) = .error (.keyError "aws_accounts")
    ∧ get_all_instances (okSDK1 [] []) ⟨none⟩
        = .error (.aseException "Cannot get all instances")
    ∧ get_all_elbs (okSDK1 [] []) ⟨none⟩
        = .error (.aseException "Cannot get all ELBs")
    ∧ get_all_security_groups (okSDK1 [] []) ⟨none⟩
        = .error (.aseException "Cannot get all security groups") :=
  C10_missing_key_raw_keyerror (okSDK1 [] []) ⟨none⟩ rfl

/-- C2: contrary to the class's stated contract (every exception raised as
`ASEException`), an SDK exception raised by `get_elbs_for_account`'s initial
`boto.connect_ec2` — which stands *before* the `try:` block in the source —
escapes unwrapped as the raw SDK error. -/
theorem C2_elb_initial_connect_unwrapped :
    get_elbs_for_account sdkConnFail cfgPure "prod"
      = .error (.sdkError "connection reset") := rfl

/-- C4: if any region's reservation-listing call fails during
`get_instances_for_account`, the whole operation fails with the fixed domain
error; no partial list from earlier regions is ever returned. -/
theorem C4_region_failure_aborts (sdk : SDK) (config : Config)
    (account_name : String) (conns : List Conn)
    (hconn : ec2_connect_all_regions sdk config account_name = .ok conns)
    (hfail : ∃ conn ∈ conns, isError (sdk.get_all_reservations conn) = true) :
    get_instances_for_account sdk config account_name
      = .error (.aseException "Cannot get instances for named account") := by
  obtain ⟨e, he⟩ := collect_error sdk.get_all_reservations conns [] hfail
  simp only [get_instances_for_account, hconn, he, wrap]

/-- C4 witness: the spec's own scenario — three regions, the second one's
listing fails — surfaces zero results, not the first region's. -/
theorem C4_region_failure_aborts_witness :
    get_instances_for_account sdk3 cfgPure "prod"
      = .error (.aseException "Cannot get instances for named account") :=
  C4_region_failure_aborts sdk3 cfgPure "prod" ["r1", "r2", "r3"] (by decide)
    ⟨"r2", by decide, by decide⟩

/-- C5: when every per-account enumeration succeeds, `get_all_instances` is
exactly the concatenation of `get_instances_for_account` over the configured
account names, in configuration order. -/
theorem C5_all_instances_concat (sdk : SDK) (config : Config)
    (accounts : List Account) (L : String → List Instance)
    (hacc : config.aws_accounts = some accounts)
    (hok : ∀ a ∈ accounts,
      get_instances_for_account sdk config a.name = .ok (L a.name)) :
    get_all_instances sdk config
      = .ok ((accounts.map (fun a => L a.name)).flatten) := by
  have h1 : get_all_aws_accounts config = .ok accounts := by
    rw [get_all_aws_accounts, hacc]
  have h2 := collect_ok (fun a => get_instances_for_account sdk config a) L
    (accounts.map Account.name)
    (fun n hn => by
      obtain ⟨a, ha, rfl⟩ := List.mem_map.mp hn
      exact hok a ha) []
  simp only [get_all_instances, h1, h2, wrap, List.nil_append, List.map_map]
  rfl

/-- An instance of the `prod` account and one of the `dev` account. -/
def instA : Instance := ⟨"i-a", [("env", "prod")], "r1"⟩

/-- See `instA`. -/
def instB : Instance := ⟨"i-b", [("env", "dev")], "r1"⟩

/-- An SDK oracle serving one region whose reservations depend on the access
key used to connect, so the two accounts of `cfg2` see different
instances. -/
def sdkTwo : SDK where
  connect_ec2 := fun _ _ => .ok "default"
  get_all_regions := fun _ => .ok [⟨"r1"⟩]
  region_connect := fun r k _ => .ok (k ++ "/" ++ r.name)
  get_all_reservations := fun conn =>
    .ok (if conn == "K1/r1" then [⟨[instA]⟩] else [⟨[instB]⟩])
  elb_connect_to_region := fun r _ _ => .ok r
  get_all_load_balancers := fun _ => .ok []
  get_all_instance_status := fun _ => .ok []
  get_all_security_groups := fun _ => .ok []

/-- The per-account results `sdkTwo` serves under `cfg2`. -/
def LTwo (n : String) : List Instance := if n == "prod" then [instA] else [instB]

/-- C5 witness: two accounts with distinct per-account results concatenate
in configuration order, `prod`'s instance before `dev`'s. -/
theorem C5_all_instances_concat_witness :
    get_all_instances sdkTwo cfg2 = .ok [instA, instB] :=
  (C5_all_instances_concat sdkTwo cfg2 [⟨"prod", "K1", "S1"⟩, ⟨"dev", "K2", "S2"⟩]
    LTwo rfl (by decide)).trans (by decide)

/-- The field relation every synthesized record satisfies: its `completed`
flag is the substring test applied to its own `descript` field. -/
def completedOk (r : EventRecord) : Prop :=
  r.completed = containsSub "[Completed]".data r.descript.data

/-- Every record appended by the per-event loop satisfies `completedOk`. -/
theorem processEvents_completed (instances : List Instance) (an : String)
    (s : InstanceStatus) :
    ∀ (evs : List Event) (acc out : List EventRecord),
      processEvents instances an s acc evs = .ok out →
      (∀ r ∈ acc, completedOk r) → ∀ r ∈ out, completedOk r
  | [], acc, out, h, hacc => by
    simp only [processEvents] at h
    injection h with h
    subst h
    exact hacc
  | ev :: evs, acc, out, h, hacc => by
    simp only [processEvents] at h
    cases hfind : findInstanceLoop instances s.id with
    | none =>
      rw [hfind] at h
      exact Except.noConfusion h
    | some inst =>
      rw [hfind] at h
      refine processEvents_completed instances an s evs _ out h ?_
      intro r hr
      rcases List.mem_append.mp hr with h1 | h2
      · exact hacc r h1
      · rw [List.mem_singleton.mp h2]
        rfl

/-- Every record emitted by the per-status loop satisfies `completedOk`. -/
theorem processStatusList_completed (instances : List Instance) (an : String) :
    ∀ (ss : List InstanceStatus) (acc out : List EventRecord),
      processStatusList instances an acc ss = .ok out →
      (∀ r ∈ acc, completedOk r) → ∀ r ∈ out, completedOk r
  | [], acc, out, h, hacc => by
    simp only [processStatusList] at h
    injection h with h
    subst h
    exact hacc
  | s :: ss, acc, out, h, hacc => by
    simp only [processStatusList] at h
    split at h
    · exact processStatusList_completed instances an ss acc out h hacc
    · next evs hev =>
      split at h
      · exact Except.noConfusion h
      · next acc2 hpe =>
        exact processStatusList_completed instances an ss acc2 out h
          (processEvents_completed instances an s evs acc acc2 hpe hacc)

/-- C6: every record of a successful `get_all_instance_events` call has
`completed = true` exactly when its emitted description contains the literal
substring `[Completed]`; any other description yields `completed = false`. -/
theorem C6_completed_iff_substring (sdk : SDK) (config : Config)
    (account_name : String) (records : List EventRecord)
    (hok : get_all_instance_events sdk config account_name = .ok records) :
    ∀ rec ∈ records,
      (rec.completed = true ↔ "[Completed]".data <:+: rec.descript.data) := by
  unfold get_all_instance_events at hok
  cases h1 : get_all_instance_status sdk config account_name with
  | error e =>
    rw [h1] at hok
    exact Except.noConfusion hok
  | ok sl =>
    rw [h1] at hok
    cases h2 : get_instances_for_account sdk config account_name with
    | error e =>
      rw [h2] at hok
      exact Except.noConfusion hok
    | ok il =>
      rw [h2] at hok
      rw [wrap_ok_iff] at hok
      intro rec hrec
      have hco := processStatusList_completed il account_name sl [] records hok
        (by simp) rec hrec
      rw [completedOk] at hco
      rw [hco]
      exact containsSub_iff _ _

/-- A maintenance event whose description carries the completion marker. -/
def evDone : Event :=
  ⟨"system-reboot", "[Completed] scheduled reboot",
   "2015-06-01T00:00:00Z", "2015-06-02T00:00:00Z"⟩

/-- A maintenance event without the completion marker. -/
def evPending : Event :=
  ⟨"system-maintenance", "scheduled maintenance",
   "2015-06-03T00:00:00Z", "2015-06-04T00:00:00Z"⟩

/-- The instance the maintenance fixtures report on. -/
def instM : Instance := ⟨"i-1", [("Name", "web")], "us-east-1"⟩

/-- A status entry for `instM` carrying the completed event. -/
def stMaint : InstanceStatus := ⟨"i-1", some [evDone]⟩

/-- The record the pipeline synthesizes from `stMaint`. -/
def recDone : EventRecord := mkRecord "prod" stMaint evDone instM

/-- C6 witness: the spec's end-to-end example — one instance, one event
marked `[Completed]` — and the iff instantiated at its record. -/
theorem C6_completed_iff_substring_witness :
    get_all_instance_events (okSDK1 [instM] [stMaint]) cfgPure "prod"
        = .ok [recDone]
    ∧ (recDone.completed = true
        ↔ "[Completed]".data <:+: recDone.descript.data) :=
  ⟨rfl, C6_completed_iff_substring (okSDK1 [instM] [stMaint]) cfgPure "prod"
    [recDone] rfl recDone (by simp)⟩

/-- C7: one record per event, not per status entry: a single status entry
carrying two events yields exactly two records agreeing on instance id,
tags, region and account, each carrying its own event's code, description,
timestamps and completion flag. -/
theorem C7_one_record_per_event (insts : List Instance) (s : InstanceStatus)
    (e1 e2 : Event) (inst : Instance)
    (hev : s.events = some [e1, e2])
    (hfind : findInstanceLoop insts s.id = some inst) :
    ∃ r1 r2 : EventRecord,
      get_all_instance_events (okSDK1 insts [s]) cfgPure "prod" = .ok [r1, r2]
      ∧ r1.instance_id = r2.instance_id ∧ r1.tags = r2.tags
      ∧ r1.region = r2.region ∧ r1.account = r2.account
      ∧ r1.event_code = e1.code ∧ r1.descript = e1.description
      ∧ r1.time_nb4 = e1.not_before ∧ r1.time_nafter = e1.not_after
      ∧ r1.completed = containsSub "[Completed]".data e1.description.data
      ∧ r2.event_code = e2.code ∧ r2.descript = e2.description
      ∧ r2.time_nb4 = e2.not_before ∧ r2.time_nafter = e2.not_after
      ∧ r2.completed = containsSub "[Completed]".data e2.description.data := by
  refine ⟨mkRecord "prod" s e1 inst, mkRecord "prod" s e2 inst, ?_,
    rfl, rfl, rfl, rfl, rfl, rfl, rfl, rfl, rfl, rfl, rfl, rfl, rfl, rfl⟩
  rw [events_pipeline]
  simp only [processStatusList, hev, processEvents, hfind]
  simp [wrap]

/-- C7 witness: a status entry with two events (one completed, one pending)
produces exactly its two records. -/
theorem C7_one_record_per_event_witness :
    ∃ r1 r2 : EventRecord,
      get_all_instance_events
          (okSDK1 [instM] [⟨"i-1", some [evDone, evPending]⟩]) cfgPure "prod"
        = .ok [r1, r2]
      ∧ r1.instance_id = r2.instance_id ∧ r1.tags = r2.tags
      ∧ r1.region = r2.region ∧ r1.account = r2.account
      ∧ r1.event_code = evDone.code ∧ r1.descript = evDone.description
      ∧ r1.time_nb4 = evDone.not_before ∧ r1.time_nafter = evDone.not_after
      ∧ r1.completed = containsSub "[Completed]".data evDone.description.data
      ∧ r2.event_code = evPending.code ∧ r2.descript = evPending.description
      ∧ r2.time_nb4 = evPending.not_before ∧ r2.time_nafter = evPending.not_after
      ∧ r2.completed = containsSub "[Completed]".data evPending.description.data :=
  C7_one_record_per_event [instM] ⟨"i-1", some [evDone, evPending]⟩
    evDone evPending instM rfl (by decide)

/-- The first of two instances sharing one id; its tags differ from the
second's. -/
def instFirst : Instance := ⟨"i-dup", [("Name", "first")], "us-east-1"⟩

/-- See `instFirst`. -/
def instSecond : Instance := ⟨"i-dup", [("Name", "second")], "us-east-1"⟩

/-- A status entry matching both duplicate instances. -/
def stDup : InstanceStatus := ⟨"i-dup", some [evPending]⟩

/-- C3: the claim is false on the code: the matching loop has no `break`, so
with two instances sharing the status entry's id the emitted record carries
the tags of the *second* one — the last match, not the first (whose tags
differ). -/
theorem C3_counterexample_first_match :
    get_all_instance_events (okSDK1 [instFirst, instSecond] [stDup]) cfgPure "prod"
      = .ok [mkRecord "prod" stDup evPending instSecond]
    ∧ instSecond.tags ≠ instFirst.tags := ⟨rfl, by decide⟩

/-- C3 (amended): the instance whose tags and region populate an emitted
record is located by linear scan taking the *last* match — the first match
of the reversed instance list. -/
theorem C3_amended_last_match (insts : List Instance) (s : InstanceStatus)
    (ev : Event) (inst : Instance)
    (hev : s.events = some [ev])
    (hlast : insts.reverse.find? (fun i => i.id == s.id) = some inst) :
    get_all_instance_events (okSDK1 insts [s]) cfgPure "prod"
      = .ok [mkRecord "prod" s ev inst] := by
  have hfind : findInstanceLoop insts s.id = some inst := by
    rw [findInstanceLoop_eq, hlast]
  rw [events_pipeline]
  simp only [processStatusList, hev, processEvents, hfind]
  simp [wrap]

/-- C3 amended-claim witness: with the duplicate-id pair, the record is
built from `instSecond`, the last match. -/
theorem C3_amended_last_match_witness :
    get_all_instance_events (okSDK1 [instFirst, instSecond] [stDup]) cfgPure "prod"
      = .ok [mkRecord "prod" stDup evPending instSecond] :=
  C3_amended_last_match [instFirst, instSecond] stDup evPending instSecond
    rfl (by decide)

/-- C8: the claim is false on the code: a status entry with an event but no
matching instance in the batch does not yield a record with `tags` absent —
the placeholder attribute access raises, the catch-all re-wraps it, and the
whole call fails with the domain error. -/
theorem C8_counterexample_orphan_status :
    get_all_instance_events (okSDK1 [] [⟨"i-orphan", some [evPending]⟩])
        cfgPure "prod"
      = .error (.aseException "Cannot get instance maintenance events") := rfl

/-- C8 (amended): whenever a status entry carries at least one event and no
instance of the batch bears its id, `get_all_instance_events` fails with
`ASEException('Cannot get instance maintenance events')`; no records are
returned. -/
theorem C8_amended_no_match_fails (insts : List Instance) (s : InstanceStatus)
    (ev : Event) (evs : List Event)
    (hev : s.events = some (ev :: evs))
    (hnone : ∀ i ∈ insts, i.id ≠ s.id) :
    get_all_instance_events (okSDK1 insts [s]) cfgPure "prod"
      = .error (.aseException "Cannot get instance maintenance events") := by
  have hfind := findInstanceLoop_eq_none insts s.id hnone
  rw [events_pipeline]
  simp only [processStatusList, hev, processEvents, hfind]
  simp [wrap]

/-- C8 amended-claim witness: a populated instance list none of whose ids
matches the status entry. -/
theorem C8_amended_no_match_fails_witness :
    get_all_instance_events (okSDK1 [instM] [⟨"i-orphan", some [evPending]⟩])
        cfgPure "prod"
      = .error (.aseException "Cannot get instance maintenance events") :=
  C8_amended_no_match_fails [instM] ⟨"i-orphan", some [evPending]⟩ evPending []
    rfl (by decide)

end ASE
